import Mathlib

/-!
Shallow embedding of the taxi-heatmap front-end core (the `TaxiHeatmap`
component: heatmap canvas overlay, info-marker layer, and the data-fetch
hook).  Numbers are modelled as rationals; JavaScript truthiness of a
number (`x || y`) is modelled explicitly (`0` is falsy); an absent
`avg_value` field is modelled as `Option.none`.
-/

namespace TaxiHeatmap

/-- One aggregated spatial bucket, as served by the backend and consumed by
the component (`HeatmapDataPoint` interface in the source).  `avg_value` is
optional in the wire format, hence `Option ℚ`. -/
structure HeatmapDataPoint where
  latitude : ℚ
  longitude : ℚ
  weight : ℚ
  unique_values : ℚ
  h3_id : String
  avg_value : Option ℚ
deriving DecidableEq

/-- The metric selection: the component's `propertyName` prop, a closed
union of three strings or `null` (shown as "Count" in the UI). -/
inductive Metric where
  | null
  | altitude
  | speed
  | azimuth
deriving DecidableEq

/-- JavaScript `a || b` where `a` is a possibly-absent number: falls back to
`b` when `a` is `undefined` or `0` (a falsy number). NaN is not modelled. -/
def jsTruthyOr (a : Option ℚ) (b : ℚ) : ℚ :=
  match a with
  | some v => if v = 0 then b else v
  | none => b

/-- JavaScript `a || b` on two numbers: `b` when `a = 0`, else `a`. -/
def jsOrQ (a b : ℚ) : ℚ := if a = 0 then b else a

/-- JavaScript `Math.round`: round half up, `round(x) = floor(x + 1/2)`. -/
def jsRound (q : ℚ) : ℤ := ⌊q + 1/2⌋

/-- Model of `Math.max(...xs)` over a spread list; only ever applied to non-empty
lists in the component (both call sites are guarded by `data.length`), so
the `[]` value is irrelevant to every claim. -/
def listMax : List ℚ → ℚ
  | [] => 0
  | x :: xs => xs.foldl max x

/-- Model of `Math.min(...xs)` over a spread list; see `listMax`. -/
def listMin : List ℚ → ℚ
  | [] => 0
  | x :: xs => xs.foldl min x

/-- An RGB triple with integer channels, as produced by the palettes and by
`Math.round` interpolation. -/
structure Rgb where
  r : ℤ
  g : ℤ
  b : ℤ
deriving DecidableEq

/-- Model of `Math.max(0, Math.min(1, intensity))` — clamp into `[0, 1]`. -/
def clamp01 (x : ℚ) : ℚ := max 0 (min 1 x)

/-- A projected pixel position (`google.maps.Point`). -/
structure Pixel where
  x : ℚ
  y : ℚ
deriving DecidableEq

/-- Geographic bounds of the viewport (`map.getBounds()`), four edges. -/
structure LatLngBounds where
  north : ℚ
  south : ℚ
  east : ℚ
  west : ℚ
deriving DecidableEq

namespace HeatmapOverlay

/-- Source `getIntensityValue` inside `HeatmapOverlay.draw`: named metrics read
`point.avg_value || point.weight` (JS truthy fallback), the default branch
reads `point.weight`. -/
def getIntensityValue (propertyName : Metric) (point : HeatmapDataPoint) : ℚ :=
  match propertyName with
  | .altitude | .speed | .azimuth => jsTruthyOr point.avg_value point.weight
  | .null => point.weight

/-- Source `HeatmapOverlay.getGradientColors`: one fixed ordered palette per metric;
`null` (and any other string) takes the default palette. -/
def getGradientColors : Metric → List Rgb
  | .speed =>
      [⟨0, 0, 128⟩, ⟨0, 0, 255⟩, ⟨0, 255, 0⟩, ⟨255, 255, 0⟩, ⟨255, 128, 0⟩, ⟨255, 0, 0⟩]
  | .altitude =>
      [⟨0, 102, 204⟩, ⟨0, 204, 102⟩, ⟨204, 204, 0⟩, ⟨204, 102, 0⟩, ⟨204, 0, 0⟩]
  | .azimuth =>
      [⟨128, 0, 128⟩, ⟨0, 0, 255⟩, ⟨0, 255, 0⟩, ⟨255, 255, 0⟩, ⟨255, 128, 0⟩, ⟨255, 0, 0⟩]
  | .null =>
      [⟨0, 0, 255⟩, ⟨0, 255, 255⟩, ⟨0, 255, 0⟩, ⟨255, 255, 0⟩, ⟨255, 128, 0⟩, ⟨255, 0, 0⟩]

/-- The floor index into the palette computed by `getColorForIntensity`
after clamping: `Math.floor(clamped * (colorCount - 1))`.  The clamped
intensity is non-negative, so the floor is non-negative and `Int.toNat` is
faithful to the JS value. -/
def colorIndexFor (propertyName : Metric) (intensity : ℚ) : ℕ :=
  (⌊clamp01 intensity * (((getGradientColors propertyName).length : ℚ) - 1)⌋).toNat

/-- Source `HeatmapOverlay.getColorForIntensity`: clamp the intensity into `[0,1]`,
scale into stop-index space, and linearly interpolate between the two
adjacent stops, with both indices clamped by `Math.min(·, colorCount - 1)`. -/
def getColorForIntensity (propertyName : Metric) (intensity : ℚ) : Rgb :=
  let clamped := clamp01 intensity
  let colors := getGradientColors propertyName
  let colorCount := colors.length
  let scaledIntensity := clamped * ((colorCount : ℚ) - 1)
  let colorIndex : ℤ := ⌊scaledIntensity⌋
  let fraction := scaledIntensity - (colorIndex : ℚ)
  let startColor := colors.getD (min colorIndex.toNat (colorCount - 1)) ⟨0, 0, 0⟩
  let endColor := colors.getD (min (colorIndex.toNat + 1) (colorCount - 1)) ⟨0, 0, 0⟩
  { r := jsRound ((startColor.r : ℚ) + ((endColor.r : ℚ) - (startColor.r : ℚ)) * fraction)
    g := jsRound ((startColor.g : ℚ) + ((endColor.g : ℚ) - (startColor.g : ℚ)) * fraction)
    b := jsRound ((startColor.b : ℚ) + ((endColor.b : ℚ) - (startColor.b : ℚ)) * fraction) }

/-- Local `minIntensity` in `draw`: minimum of the mapped intensity values. -/
def minIntensity (propertyName : Metric) (data : List HeatmapDataPoint) : ℚ :=
  listMin (data.map (getIntensityValue propertyName))

/-- Local `maxIntensity` in `draw`: maximum of the mapped intensity values. -/
def maxIntensity (propertyName : Metric) (data : List HeatmapDataPoint) : ℚ :=
  listMax (data.map (getIntensityValue propertyName))

/-- Local `range` in `draw`: `maxIntensity - minIntensity || 1` (JS falsy
substitution of `1` when the difference is `0`). -/
def range (propertyName : Metric) (data : List HeatmapDataPoint) : ℚ :=
  jsOrQ (maxIntensity propertyName data - minIntensity propertyName data) 1

/-- Per-cell normalized intensity in `draw`:
`(rawIntensity - minIntensity) / range`.  For the cell at index `i`,
`intensityValues[i] = getIntensityValue(data[i])`. -/
def normalizedIntensity (propertyName : Metric) (data : List HeatmapDataPoint)
    (point : HeatmapDataPoint) : ℚ :=
  (getIntensityValue propertyName point - minIntensity propertyName data) /
    range propertyName data

/-- The color `draw` computes for a cell:
`getColorForIntensity(normalizedIntensity)`. -/
def cellColor (propertyName : Metric) (data : List HeatmapDataPoint)
    (point : HeatmapDataPoint) : Rgb :=
  getColorForIntensity propertyName (normalizedIntensity propertyName data point)

/-- The observable canvas state after one `draw` cycle: CSS position
(`style.left` / `style.top`), dimensions, and the list of cells actually
drawn (in snapshot order). -/
structure CanvasState where
  left : ℚ
  top : ℚ
  width : ℚ
  height : ℚ
  drawn : List HeatmapDataPoint
deriving DecidableEq

/-- Source `HeatmapOverlay.draw`, geometry part: `topLeft` is the projection of
`bounds.getNorthEast()` and `bottomRight` the projection of
`bounds.getSouthWest()` (exactly as in the source); if either projection is
unavailable the cycle is skipped (`none`).  The canvas is placed at
`topLeft` with `width = |bottomRight.x - topLeft.x|`,
`height = |bottomRight.y - topLeft.y|`; a cell is drawn unless its offset
from `topLeft` satisfies `x < 0 ∨ x > width ∨ y < 0 ∨ y > height` or its
projection is unavailable. -/
def draw (projLatLng : ℚ → ℚ → Option Pixel) (bounds : LatLngBounds)
    (data : List HeatmapDataPoint) : Option CanvasState :=
  match projLatLng bounds.north bounds.east, projLatLng bounds.south bounds.west with
  | some topLeft, some bottomRight =>
    let width := |bottomRight.x - topLeft.x|
    let height := |bottomRight.y - topLeft.y|
    let drawn := data.filter (fun point =>
      match projLatLng point.latitude point.longitude with
      | none => false
      | some position =>
        let x := position.x - topLeft.x
        let y := position.y - topLeft.y
        if x < 0 ∨ x > width ∨ y < 0 ∨ y > height then false else true)
    some { left := topLeft.x, top := topLeft.y, width := width, height := height,
           drawn := drawn }
  | _, _ => none

end HeatmapOverlay

namespace InfoMarkers

/-- Source `getIntensityValue` inside `InfoMarkers.getColorForPoint` — the source
duplicates the overlay's function verbatim. -/
def getIntensityValue (propertyName : Metric) (p : HeatmapDataPoint) : ℚ :=
  match propertyName with
  | .altitude | .speed | .azimuth => jsTruthyOr p.avg_value p.weight
  | .null => p.weight

/-- Source `getGradientColors` inside `InfoMarkers.getColorForPoint` — the source
duplicates the overlay's palettes verbatim. -/
def getGradientColors : Metric → List Rgb
  | .speed =>
      [⟨0, 0, 128⟩, ⟨0, 0, 255⟩, ⟨0, 255, 0⟩, ⟨255, 255, 0⟩, ⟨255, 128, 0⟩, ⟨255, 0, 0⟩]
  | .altitude =>
      [⟨0, 102, 204⟩, ⟨0, 204, 102⟩, ⟨204, 204, 0⟩, ⟨204, 102, 0⟩, ⟨204, 0, 0⟩]
  | .azimuth =>
      [⟨128, 0, 128⟩, ⟨0, 0, 255⟩, ⟨0, 255, 0⟩, ⟨255, 255, 0⟩, ⟨255, 128, 0⟩, ⟨255, 0, 0⟩]
  | .null =>
      [⟨0, 0, 255⟩, ⟨0, 255, 255⟩, ⟨0, 255, 0⟩, ⟨255, 255, 0⟩, ⟨255, 128, 0⟩, ⟨255, 0, 0⟩]

/-- The template string `rgb(r, g, b)` returned by `getColorForPoint`. -/
def rgbString (r g b : ℤ) : String :=
  "rgb(" ++ toString r ++ ", " ++ toString g ++ ", " ++ toString b ++ ")"

/-- Source `InfoMarkers.getColorForPoint`: recomputes the snapshot min/max/range,
normalizes the point's raw value (without clamping, unlike the overlay's
`getColorForIntensity`), interpolates in the same palette and renders the
`rgb(...)` CSS string. -/
def getColorForPoint (data : List HeatmapDataPoint) (propertyName : Metric)
    (point : HeatmapDataPoint) : String :=
  let intensityValues := data.map (getIntensityValue propertyName)
  let maxIntensity := listMax intensityValues
  let minIntensity := listMin intensityValues
  let range := jsOrQ (maxIntensity - minIntensity) 1
  let rawIntensity := getIntensityValue propertyName point
  let normalizedIntensity := (rawIntensity - minIntensity) / range
  let colors := getGradientColors propertyName
  let colorCount := colors.length
  let scaledIntensity := normalizedIntensity * ((colorCount : ℚ) - 1)
  let colorIndex : ℤ := ⌊scaledIntensity⌋
  let fraction := scaledIntensity - (colorIndex : ℚ)
  let startColor := colors.getD (min colorIndex.toNat (colorCount - 1)) ⟨0, 0, 0⟩
  let endColor := colors.getD (min (colorIndex.toNat + 1) (colorCount - 1)) ⟨0, 0, 0⟩
  let r := jsRound ((startColor.r : ℚ) + ((endColor.r : ℚ) - (startColor.r : ℚ)) * fraction)
  let g := jsRound ((startColor.g : ℚ) + ((endColor.g : ℚ) - (startColor.g : ℚ)) * fraction)
  let b := jsRound ((startColor.b : ℚ) + ((endColor.b : ℚ) - (startColor.b : ℚ)) * fraction)
  rgbString r g b

/-- A marker click: `onClick={() => setSelectedPoint(point)}` — the new
selection unconditionally replaces the old one. -/
def clickMarker (point : HeatmapDataPoint) (_selectedPoint : Option HeatmapDataPoint) :
    Option HeatmapDataPoint :=
  some point

/-- The popup dismiss button: `onClick={() => setSelectedPoint(null)}`. -/
def dismissPopup (_selectedPoint : Option HeatmapDataPoint) : Option HeatmapDataPoint :=
  none

/-- How many detail popups the component renders: the popup JSX is rendered
exactly when `selectedPoint` is non-null. -/
def popupCount : Option HeatmapDataPoint → ℕ
  | some _ => 1
  | none => 0

end InfoMarkers

/-! The `useHeatmapData` hook, modelled as a state machine over discrete
events.  Each fetch attempt produces a `start` event (the synchronous
prefix of `fetchData`: `setLoading(true); setError(null)`) and later one
completion event (`success`: `setData(result); setLoading(false)`, or
`failure`: `setError(message); setData([]); setLoading(false)`).  The hook
has no cancellation or staleness guard, so completion events are applied
unconditionally, whichever `(col_name, resolution)` pair they belong to; an
execution is any interleaving in which each completion follows its start. -/

/-- The hook's state triple `(data, loading, error)`. -/
structure HookState where
  data : List HeatmapDataPoint
  loading : Bool
  error : Option String
deriving DecidableEq

/-- Initial hook state: `useState([])`, `useState(true)`, `useState(null)`. -/
def initialState : HookState := { data := [], loading := true, error := none }

/-- Events produced by fetch attempts, each tagged with the
`(col_name, resolution)` pair of the request that produced it. -/
inductive FetchEvent where
  | start (col_name : Option String) (resolution : ℕ)
  | success (col_name : Option String) (resolution : ℕ) (result : List HeatmapDataPoint)
  | failure (col_name : Option String) (resolution : ℕ) (message : String)
deriving DecidableEq

/-- State update performed by each event.  Note: the completion branches
ignore the event's request tag — the source installs no guard comparing it
with the latest requested pair. -/
def applyEvent (s : HookState) : FetchEvent → HookState
  | .start _ _ => { s with loading := true, error := none }
  | .success _ _ result => { s with data := result, loading := false }
  | .failure _ _ message => { data := [], loading := false, error := some message }

/-- Run a sequence of events from a state. -/
def runEvents (s : HookState) (events : List FetchEvent) : HookState :=
  events.foldl applyEvent s

/-- The `(col_name, resolution)` pair of the most recently started request
in a trace — the pair "active" after all those starts. -/
def lastStarted (events : List FetchEvent) : Option (Option String × ℕ) :=
  events.foldl
    (fun acc e =>
      match e with
      | .start c r => some (c, r)
      | _ => acc)
    none

/-- The snapshot a completion event commits: its payload for `success`,
the empty snapshot for `failure`; `none` for a non-completion event. -/
def completionData : FetchEvent → Option (List HeatmapDataPoint)
  | .success _ _ result => some result
  | .failure _ _ _ => some []
  | .start _ _ => none

/-- Outcome of one HTTP attempt as seen by `fetchData`'s `try` block. -/
inductive FetchOutcome where
  | response (status : ℕ) (body : List HeatmapDataPoint)
  | transportFailure (message : String)
deriving DecidableEq

/-- Model of `response.ok` per the Fetch standard: status in the range 200–299. -/
def responseOk (status : ℕ) : Bool :=
  if 200 ≤ status ∧ status ≤ 299 then true else false

/-- The completion event `fetchData` generates for an outcome: a non-ok
response throws `HTTP error! status: <status>` which the `catch` turns into
the failure path; a transport error carries its own message. -/
def completionEvent (col_name : Option String) (resolution : ℕ) :
    FetchOutcome → FetchEvent
  | .response status body =>
      if responseOk status then .success col_name resolution body
      else .failure col_name resolution ("HTTP error! status: " ++ toString status)
  | .transportFailure message => .failure col_name resolution message

/-- An outcome that is not a successful fetch: a non-2xx response or a
transport error. -/
def isFailureOutcome : FetchOutcome → Prop
  | .response status _ => responseOk status = false
  | .transportFailure _ => True

/-! Concrete sample data. `cellA` and `cellB` are the two cells of the
spec's worked scenario (§8): `avg_value` 12.5 and 30.0, weights 100/50. -/

/-- Cell A of the spec scenario. -/
def cellA : HeatmapDataPoint :=
  { latitude := 5109/100, longitude := 7143/100, weight := 100,
    unique_values := 0, h3_id := "A", avg_value := some (25/2) }

/-- Cell B of the spec scenario. -/
def cellB : HeatmapDataPoint :=
  { latitude := 511/10, longitude := 7144/100, weight := 50,
    unique_values := 0, h3_id := "B", avg_value := some 30 }

/-- A cell whose `avg_value` is present and equal to `0` (a falsy number in
JavaScript) with a different `weight`. -/
def cellZeroAvg : HeatmapDataPoint :=
  { latitude := 0, longitude := 0, weight := 5,
    unique_values := 1, h3_id := "Z", avg_value := some 0 }

/-- A concrete pixel projection with the standard screen orientation of
`fromLatLngToDivPixel`: `x` grows eastward, `y` grows southward.  Under any
such projection the north-east corner of the bounds is the TOP-RIGHT pixel
corner, not the top-left one the source assigns it to. -/
def demoProj (lat lng : ℚ) : Option Pixel :=
  some { x := 100 * (lng - 71), y := 100 * (52 - lat) }

/-- Concrete viewport bounds: one degree on each side. -/
def demoBounds : LatLngBounds := { north := 52, south := 51, east := 72, west := 71 }

/-- A cell at the exact geographic center of `demoBounds`; under `demoProj`
it projects to pixel `(50, 50)`, the center of the viewport pixel rectangle
`[0, 100] × [0, 100]`. -/
def demoCenterCell : HeatmapDataPoint :=
  { latitude := 103/2, longitude := 143/2, weight := 1,
    unique_values := 1, h3_id := "C", avg_value := none }

/-- Whether the metric is one of the three named properties
(`altitude`, `speed`, `azimuth`). -/
def isNamedProperty : Metric → Bool
  | .altitude | .speed | .azimuth => true
  | .null => false

/-- An execution trace of `useHeatmapData` in which a fetch for resolution 8
is still in flight when the resolution changes to 9; the resolution-9
request completes first, then the stale resolution-8 request completes.
Each completion follows its start, so this interleaving is realizable. -/
def staleTrace : List FetchEvent :=
  [FetchEvent.start (some "speed") 8, FetchEvent.start (some "speed") 9,
    FetchEvent.success (some "speed") 9 [cellB],
    FetchEvent.success (some "speed") 8 [cellA]]

/-! Helper lemmas about `listMax`, `listMin` and `clamp01`. -/

lemma le_foldl_max (b : ℚ) (l : List ℚ) : b ≤ l.foldl max b := by
  induction l generalizing b with
  | nil => exact le_refl b
  | cons x xs ih => exact le_trans (le_max_left b x) (ih (max b x))

lemma mem_le_foldl_max (a : ℚ) :
    ∀ l : List ℚ, a ∈ l → ∀ b : ℚ, a ≤ l.foldl max b := by
  intro l
  induction l with
  | nil => intro h; cases h
  | cons x xs ih =>
    intro h b
    rcases List.mem_cons.mp h with rfl | hmem
    · exact le_trans (le_max_right b a) (le_foldl_max (max b a) xs)
    · exact ih hmem (max b x)

lemma mem_le_listMax (a : ℚ) (l : List ℚ) (h : a ∈ l) : a ≤ listMax l := by
  cases l with
  | nil => cases h
  | cons x xs =>
    rcases List.mem_cons.mp h with rfl | hmem
    · exact le_foldl_max a xs
    · exact mem_le_foldl_max a xs hmem x

lemma foldl_max_le (b c : ℚ) (l : List ℚ) (hb : b ≤ c) (h : ∀ a ∈ l, a ≤ c) :
    l.foldl max b ≤ c := by
  induction l generalizing b with
  | nil => exact hb
  | cons x xs ih =>
    exact ih (max b x) (max_le hb (h x (List.mem_cons_self x xs)))
      (fun a ha => h a (List.mem_cons_of_mem x ha))

lemma foldl_min_le (b : ℚ) (l : List ℚ) : l.foldl min b ≤ b := by
  induction l generalizing b with
  | nil => exact le_refl b
  | cons x xs ih => exact le_trans (ih (min b x)) (min_le_left b x)

lemma foldl_min_le_mem (a : ℚ) :
    ∀ l : List ℚ, a ∈ l → ∀ b : ℚ, l.foldl min b ≤ a := by
  intro l
  induction l with
  | nil => intro h; cases h
  | cons x xs ih =>
    intro h b
    rcases List.mem_cons.mp h with rfl | hmem
    · exact le_trans (foldl_min_le (min b a) xs) (min_le_right b a)
    · exact ih hmem (min b x)

lemma listMin_le_mem (a : ℚ) (l : List ℚ) (h : a ∈ l) : listMin l ≤ a := by
  cases l with
  | nil => cases h
  | cons x xs =>
    rcases List.mem_cons.mp h with rfl | hmem
    · exact foldl_min_le a xs
    · exact foldl_min_le_mem a xs hmem x

lemma le_foldl_min (b c : ℚ) (l : List ℚ) (hb : c ≤ b) (h : ∀ a ∈ l, c ≤ a) :
    c ≤ l.foldl min b := by
  induction l generalizing b with
  | nil => exact hb
  | cons x xs ih =>
    exact ih (min b x) (le_min hb (h x (List.mem_cons_self x xs)))
      (fun a ha => h a (List.mem_cons_of_mem x ha))

lemma clamp01_idem (x : ℚ) : clamp01 (clamp01 x) = clamp01 x := by
  unfold clamp01
  rcases le_total x 0 with h0 | h0
  · rw [min_eq_right (le_trans h0 zero_le_one), max_eq_left h0,
      min_eq_right zero_le_one, max_self]
  · rcases le_total 1 x with h1 | h1
    · rw [min_eq_left h1, max_eq_right zero_le_one, min_self,
        max_eq_right zero_le_one]
    · rw [min_eq_right h1, max_eq_right h0, min_eq_right h1, max_eq_right h0]

lemma clamp01_of_le (x : ℚ) (h0 : 0 ≤ x) (h1 : x ≤ 1) : clamp01 x = x := by
  unfold clamp01
  rw [min_eq_right h1, max_eq_right h0]

lemma listMax_of_const (l : List ℚ) (c : ℚ) (hne : l ≠ []) (h : ∀ a ∈ l, a = c) :
    listMax l = c := by
  cases l with
  | nil => exact absurd rfl hne
  | cons x xs =>
    have hx : x = c := h x (List.mem_cons_self x xs)
    apply le_antisymm
    · exact foldl_max_le x c xs (le_of_eq hx)
        (fun a ha => le_of_eq (h a (List.mem_cons_of_mem x ha)))
    · exact hx ▸ mem_le_listMax x (x :: xs) (List.mem_cons_self x xs)

lemma listMin_of_const (l : List ℚ) (c : ℚ) (hne : l ≠ []) (h : ∀ a ∈ l, a = c) :
    listMin l = c := by
  cases l with
  | nil => exact absurd rfl hne
  | cons x xs =>
    have hx : x = c := h x (List.mem_cons_self x xs)
    apply le_antisymm
    · exact hx ▸ listMin_le_mem x (x :: xs) (List.mem_cons_self x xs)
    · exact le_foldl_min x c xs (le_of_eq hx.symm)
        (fun a ha => le_of_eq (h a (List.mem_cons_of_mem x ha)).symm)

lemma minIntensity_le_cell (m : Metric) (data : List HeatmapDataPoint)
    (p : HeatmapDataPoint) (h : p ∈ data) :
    HeatmapOverlay.minIntensity m data ≤ HeatmapOverlay.getIntensityValue m p :=
  listMin_le_mem _ _ (List.mem_map_of_mem (HeatmapOverlay.getIntensityValue m) h)

lemma cell_le_maxIntensity (m : Metric) (data : List HeatmapDataPoint)
    (p : HeatmapDataPoint) (h : p ∈ data) :
    HeatmapOverlay.getIntensityValue m p ≤ HeatmapOverlay.maxIntensity m data :=
  mem_le_listMax _ _ (List.mem_map_of_mem (HeatmapOverlay.getIntensityValue m) h)

/-- For a cell of the snapshot, the `draw`-cycle normalized intensity lies
in `[0, 1]`: the range substitution makes the denominator positive, and the
raw value sits between the snapshot minimum and maximum. -/
lemma normalizedIntensity_mem_unit (m : Metric) (data : List HeatmapDataPoint)
    (p : HeatmapDataPoint) (h : p ∈ data) :
    0 ≤ HeatmapOverlay.normalizedIntensity m data p ∧
      HeatmapOverlay.normalizedIntensity m data p ≤ 1 := by
  have hmin := minIntensity_le_cell m data p h
  have hmax := cell_le_maxIntensity m data p h
  unfold HeatmapOverlay.normalizedIntensity HeatmapOverlay.range
  by_cases hd : HeatmapOverlay.maxIntensity m data - HeatmapOverlay.minIntensity m data = 0
  · have hle : HeatmapOverlay.maxIntensity m data ≤ HeatmapOverlay.minIntensity m data :=
      le_of_sub_nonpos (le_of_eq hd)
    have hraw : HeatmapOverlay.getIntensityValue m p = HeatmapOverlay.minIntensity m data :=
      le_antisymm (le_trans hmax hle) hmin
    rw [hd]
    simp [jsOrQ, hraw]
  · have hpos : 0 < HeatmapOverlay.maxIntensity m data - HeatmapOverlay.minIntensity m data :=
      lt_of_le_of_ne (sub_nonneg.mpr (le_trans hmin hmax)) (Ne.symm hd)
    rw [jsOrQ, if_neg hd]
    constructor
    · exact div_nonneg (sub_nonneg.mpr hmin) (le_of_lt hpos)
    · exact (div_le_one hpos).mpr (sub_le_sub_right hmax _)

/-- The marker layer's copy of `getIntensityValue` is the same function as
the overlay's: the source duplicates the code verbatim. -/
lemma infoIntensity_eq :
    InfoMarkers.getIntensityValue = HeatmapOverlay.getIntensityValue := by
  funext m p
  cases m <;> rfl

/-- The marker layer's copy of the palettes is the same mapping as the
overlay's: the source duplicates the code verbatim. -/
lemma infoPalettes_eq :
    InfoMarkers.getGradientColors = HeatmapOverlay.getGradientColors := by
  funext m
  cases m <;> rfl

lemma gradientColors_length_pos (m : Metric) :
    0 < (HeatmapOverlay.getGradientColors m).length := by
  cases m <;> simp [HeatmapOverlay.getGradientColors]

/-- Claim C1, counterexample: the claim says the raw intensity equals the
cell's `avgValue` whenever the metric is a named property and `avgValue` is
present.  For the named metric `speed` and a cell whose `avg_value` is
present and equal to `0`, the code's JS-truthy fallback
(`avg_value || weight`) returns the `weight` (here `5`), not the present
`avgValue` (`0`). -/
theorem c1_zero_avg_counterexample :
    isNamedProperty Metric.speed = true
    ∧ cellZeroAvg.avg_value = some 0
    ∧ HeatmapOverlay.getIntensityValue Metric.speed cellZeroAvg = cellZeroAvg.weight
    ∧ HeatmapOverlay.getIntensityValue Metric.speed cellZeroAvg ≠ 0 := by
  refine ⟨rfl, rfl, ?_, ?_⟩ <;>
    simp [HeatmapOverlay.getIntensityValue, jsTruthyOr, cellZeroAvg]

/-- Claim C1, amended: the raw intensity value equals the cell's `avgValue`
whenever the metric is a named property and `avgValue` is present AND
nonzero; it equals the cell's `weight` otherwise (metric is none, `avgValue`
absent, or `avgValue` equal to `0`, which is falsy in JavaScript).  Both
copies of the extractor (overlay and marker layer) agree. -/
theorem c1_raw_value_amended (m : Metric) (p : HeatmapDataPoint) :
    (isNamedProperty m = false → HeatmapOverlay.getIntensityValue m p = p.weight)
    ∧ (p.avg_value = none → HeatmapOverlay.getIntensityValue m p = p.weight)
    ∧ (p.avg_value = some 0 → HeatmapOverlay.getIntensityValue m p = p.weight)
    ∧ (∀ v : ℚ, p.avg_value = some v → v ≠ 0 → isNamedProperty m = true →
        HeatmapOverlay.getIntensityValue m p = v)
    ∧ InfoMarkers.getIntensityValue m p = HeatmapOverlay.getIntensityValue m p := by
  cases m <;>
    refine ⟨fun h1 => ?_, fun h2 => ?_, fun h3 => ?_, fun v hv hvne h4 => ?_,
      congrFun (congrFun infoIntensity_eq _) p⟩ <;>
    first
      | rfl
      | cases h1
      | exact absurd h4 (by decide)
      | simp [HeatmapOverlay.getIntensityValue, jsTruthyOr, hv, hvne]
      | simp [HeatmapOverlay.getIntensityValue, jsTruthyOr, h2]
      | simp [HeatmapOverlay.getIntensityValue, jsTruthyOr, h3]

/-- Claim C1, witness: the amended theorem applied to the named metric
`speed` and a cell with a present, nonzero `avg_value` of 12.5. -/
theorem c1_raw_value_amended_witness :
    HeatmapOverlay.getIntensityValue Metric.speed cellA = 25/2 :=
  (c1_raw_value_amended Metric.speed cellA).2.2.2.1 (25/2) rfl (by norm_num) rfl

/-- Claim C2: evaluation of the `draw` cycle at a concrete valid projection
and viewport.  Under the standard screen orientation the north-east bounds
corner projects to the TOP-RIGHT pixel `(100, 0)` and the south-west corner
to the BOTTOM-LEFT pixel `(0, 100)`, so the viewport pixel rectangle is
`[0, 100] × [0, 100]`.  The source assigns the north-east projection to
`topLeft`, so the canvas is positioned with `left = 100` (the viewport's
RIGHT edge) instead of `0` and does not cover the viewport; the cell at the
exact viewport center, pixel `(50, 50)`, gets offset `x = -50 < 0` and is
skipped, so nothing is drawn. -/
theorem c2_canvas_misplaced_eval :
    HeatmapOverlay.draw demoProj demoBounds [demoCenterCell] =
        some { left := 100, top := 0, width := 100, height := 100, drawn := [] }
    ∧ demoProj demoBounds.north demoBounds.east = some { x := 100, y := 0 }
    ∧ demoProj demoBounds.south demoBounds.west = some { x := 0, y := 100 }
    ∧ demoProj demoCenterCell.latitude demoCenterCell.longitude =
        some { x := 50, y := 50 } := by
  refine ⟨?_, ?_, ?_, ?_⟩ <;>
    · simp [HeatmapOverlay.draw, demoProj, demoBounds, demoCenterCell, List.filter]
      norm_num

/-- Claim C3, counterexample: in the trace where a fetch for resolution 8 is
superseded by one for resolution 9 and the stale request completes last, the
committed snapshot is the stale request's result `[cellA]`, not the result
`[cellB]` of the `(metric, resolution)` pair active at completion time
(`(speed, 9)`): the stale in-flight result overwrites the newer state. -/
theorem c3_stale_overwrite_counterexample :
    lastStarted staleTrace = some (some "speed", 9)
    ∧ (runEvents initialState staleTrace).data = [cellA]
    ∧ [cellA] ≠ [cellB] := by
  refine ⟨rfl, rfl, ?_⟩
  simp [cellA, cellB]

/-- Claim C3, amended: the hook installs no staleness guard, so the
committed snapshot is simply the payload of whichever completion event is
applied last (last-write-wins by completion order), regardless of which
`(metric, resolution)` pair that completion belongs to. -/
theorem c3_last_completion_wins (s : HookState) (tr : List FetchEvent)
    (e : FetchEvent) (d : List HeatmapDataPoint) (h : completionData e = some d) :
    (runEvents s (tr ++ [e])).data = d := by
  unfold runEvents
  rw [List.foldl_append]
  cases e with
  | start c r => simp [completionData] at h
  | success c r result =>
    simp only [completionData, Option.some.injEq] at h
    subst h
    rfl
  | failure c r msg =>
    simp only [completionData, Option.some.injEq] at h
    rw [← h]
    rfl

/-- Claim C3, witness: the amended theorem applied to the stale trace, whose
last completion carries `[cellA]`. -/
theorem c3_last_completion_wins_witness :
    (runEvents initialState
      ([FetchEvent.start (some "speed") 8, FetchEvent.start (some "speed") 9,
        FetchEvent.success (some "speed") 9 [cellB]] ++
        [FetchEvent.success (some "speed") 8 [cellA]])).data = [cellA] :=
  c3_last_completion_wins initialState _ _ [cellA] rfl

/-- Claim C4, counterexample: the claim says selecting the already-selected
point clears the selection; in the code a marker click unconditionally sets
the clicked point, so re-selecting the selected cell leaves it selected
(the popup stays open) instead of clearing it. -/
theorem c4_reselect_counterexample :
    InfoMarkers.clickMarker cellA (some cellA) = some cellA
    ∧ InfoMarkers.clickMarker cellA (some cellA) ≠ none :=
  ⟨rfl, by simp [InfoMarkers.clickMarker]⟩

/-- Claim C4, amended: at most one detail popup is open at any time;
selecting marker B while A is selected leaves exactly one popup open showing
B's data; the dismiss control leaves zero popups open; selecting the
already-selected point leaves it selected (it does NOT clear the
selection — only dismissal or selecting a different marker changes it). -/
theorem c4_selection_amended (s : Option HeatmapDataPoint) (a b : HeatmapDataPoint) :
    InfoMarkers.popupCount s ≤ 1
    ∧ InfoMarkers.clickMarker b (some a) = some b
    ∧ InfoMarkers.popupCount (InfoMarkers.clickMarker b (some a)) = 1
    ∧ InfoMarkers.popupCount (InfoMarkers.dismissPopup s) = 0
    ∧ InfoMarkers.clickMarker a (some a) = some a := by
  refine ⟨?_, rfl, rfl, rfl, rfl⟩
  cases s <;> simp [InfoMarkers.popupCount]

/-- Claim C5: for every non-empty snapshot whose raw intensity values are
all equal (single-cell snapshots included), the `range` substitution makes
the divisor exactly `1` (so no division by zero occurs and, in exact
arithmetic, no NaN), and every cell's normalized intensity is exactly 0. -/
theorem c5_equal_raws_normalize_zero (m : Metric) (data : List HeatmapDataPoint) (c : ℚ)
    (hne : data ≠ []) (hall : ∀ p ∈ data, HeatmapOverlay.getIntensityValue m p = c) :
    HeatmapOverlay.range m data = 1
    ∧ ∀ p ∈ data, HeatmapOverlay.normalizedIntensity m data p = 0 := by
  have hmap : ∀ a ∈ data.map (HeatmapOverlay.getIntensityValue m), a = c := by
    intro a ha
    rcases List.mem_map.mp ha with ⟨p, hp, rfl⟩
    exact hall p hp
  have hmapne : data.map (HeatmapOverlay.getIntensityValue m) ≠ [] := by
    simpa using hne
  have hmax : HeatmapOverlay.maxIntensity m data = c := listMax_of_const _ c hmapne hmap
  have hmin : HeatmapOverlay.minIntensity m data = c := listMin_of_const _ c hmapne hmap
  have hrange : HeatmapOverlay.range m data = 1 := by
    unfold HeatmapOverlay.range
    rw [hmax, hmin, sub_self]
    simp [jsOrQ]
  refine ⟨hrange, fun p hp => ?_⟩
  unfold HeatmapOverlay.normalizedIntensity
  rw [hrange, hmin, hall p hp, sub_self]
  simp

/-- Claim C5, witness: the theorem applied to the single-cell snapshot
`[cellA]` with metric `speed` (all raw values trivially equal 12.5). -/
theorem c5_equal_raws_normalize_zero_witness :
    ([cellA] ≠ ([] : List HeatmapDataPoint))
    ∧ HeatmapOverlay.range Metric.speed [cellA] = 1
    ∧ HeatmapOverlay.normalizedIntensity Metric.speed [cellA] cellA = 0 := by
  have h := c5_equal_raws_normalize_zero Metric.speed [cellA] (25/2) (by simp)
    (by
      intro p hp
      rcases List.mem_singleton.mp hp with rfl
      simp [HeatmapOverlay.getIntensityValue, jsTruthyOr, cellA])
  exact ⟨by simp, h.1, h.2 cellA (List.mem_singleton_self cellA)⟩

/-- Claim C6: for every metric (hence every palette), the Color Scale
Engine's output at normalized intensity 0 exactly equals the palette's first
stop, and its output at intensity 1 exactly equals the palette's last
stop. -/
theorem c6_palette_endpoints (m : Metric) :
    HeatmapOverlay.getColorForIntensity m 0 =
        (HeatmapOverlay.getGradientColors m).headD ⟨0, 0, 0⟩
    ∧ HeatmapOverlay.getColorForIntensity m 1 =
        ((HeatmapOverlay.getGradientColors m).getLast?).getD ⟨0, 0, 0⟩ := by
  cases m <;> refine ⟨?_, ?_⟩ <;>
    · norm_num [HeatmapOverlay.getColorForIntensity, HeatmapOverlay.getGradientColors,
        clamp01, jsRound]
      try decide

/-- Claim C7: for every snapshot, metric, and cell of the snapshot, the
color string the marker layer computes for the cell equals the overlay
renderer's color for the same cell rendered as the same `rgb(...)` string:
both layers run the identical raw-value extraction, min/max normalization,
palette selection and interpolation (the marker layer omits the overlay's
intensity clamp, which is a no-op for snapshot members). -/
theorem c7_layers_agree (data : List HeatmapDataPoint) (m : Metric)
    (p : HeatmapDataPoint) (h : p ∈ data) :
    InfoMarkers.getColorForPoint data m p =
      InfoMarkers.rgbString (HeatmapOverlay.cellColor m data p).r
        (HeatmapOverlay.cellColor m data p).g (HeatmapOverlay.cellColor m data p).b := by
  obtain ⟨h0, h1⟩ := normalizedIntensity_mem_unit m data p h
  have hcl : clamp01 (HeatmapOverlay.normalizedIntensity m data p) =
      HeatmapOverlay.normalizedIntensity m data p :=
    clamp01_of_le _ h0 h1
  simp only [HeatmapOverlay.normalizedIntensity, HeatmapOverlay.minIntensity,
    HeatmapOverlay.maxIntensity, HeatmapOverlay.range] at hcl
  simp only [InfoMarkers.getColorForPoint, infoIntensity_eq, infoPalettes_eq,
    HeatmapOverlay.cellColor, HeatmapOverlay.getColorForIntensity,
    HeatmapOverlay.normalizedIntensity, HeatmapOverlay.minIntensity,
    HeatmapOverlay.maxIntensity, HeatmapOverlay.range, hcl]

/-- Claim C7, witness: the theorem applied to the two-cell spec snapshot
with metric `speed` and cell A. -/
theorem c7_layers_agree_witness :
    InfoMarkers.getColorForPoint [cellA, cellB] Metric.speed cellA =
      InfoMarkers.rgbString (HeatmapOverlay.cellColor Metric.speed [cellA, cellB] cellA).r
        (HeatmapOverlay.cellColor Metric.speed [cellA, cellB] cellA).g
        (HeatmapOverlay.cellColor Metric.speed [cellA, cellB] cellA).b :=
  c7_layers_agree [cellA, cellB] Metric.speed cellA (List.mem_cons_self cellA [cellB])

/-- Claim C8: whenever a fetch completes with a non-2xx HTTP status or a
transport error, the hook ends in the failed state — the snapshot is cleared
to empty, an error message is surfaced (`error` is non-null), and loading is
over — regardless of the prior state. -/
theorem c8_failure_clears_snapshot (s : HookState) (col_name : Option String)
    (resolution : ℕ) (outcome : FetchOutcome) (h : isFailureOutcome outcome) :
    (applyEvent s (completionEvent col_name resolution outcome)).data = []
    ∧ (applyEvent s (completionEvent col_name resolution outcome)).error.isSome = true
    ∧ (applyEvent s (completionEvent col_name resolution outcome)).loading = false := by
  cases outcome with
  | response status body =>
    have h' : responseOk status = false := h
    simp [completionEvent, h', applyEvent]
  | transportFailure msg =>
    simp [completionEvent, applyEvent]

/-- Claim C8, witness: the theorem applied to an HTTP 500 response arriving
while a non-empty snapshot is displayed. -/
theorem c8_failure_clears_snapshot_witness :
    (applyEvent { data := [cellA], loading := false, error := none }
        (completionEvent (some "speed") 8 (FetchOutcome.response 500 []))).data = []
    ∧ (applyEvent { data := [cellA], loading := false, error := none }
        (completionEvent (some "speed") 8 (FetchOutcome.response 500 []))).error.isSome = true
    ∧ (applyEvent { data := [cellA], loading := false, error := none }
        (completionEvent (some "speed") 8 (FetchOutcome.response 500 []))).loading = false :=
  c8_failure_clears_snapshot { data := [cellA], loading := false, error := none }
    (some "speed") 8 (FetchOutcome.response 500 []) rfl

/-- Claim C9: on the spec's two-cell snapshot (avg speeds 12.5 and 30.0),
metric `speed`, the normalizer yields intensities 0 and 1, and the Color
Scale Engine yields the speed palette's first stop `rgb(0,0,128)` for cell A
and its last stop `rgb(255,0,0)` for cell B. -/
theorem c9_scenario :
    HeatmapOverlay.normalizedIntensity Metric.speed [cellA, cellB] cellA = 0
    ∧ HeatmapOverlay.normalizedIntensity Metric.speed [cellA, cellB] cellB = 1
    ∧ HeatmapOverlay.cellColor Metric.speed [cellA, cellB] cellA =
        (HeatmapOverlay.getGradientColors Metric.speed).headD ⟨0, 0, 0⟩
    ∧ HeatmapOverlay.cellColor Metric.speed [cellA, cellB] cellB =
        ((HeatmapOverlay.getGradientColors Metric.speed).getLast?).getD ⟨0, 0, 0⟩
    ∧ (HeatmapOverlay.getGradientColors Metric.speed).headD ⟨0, 0, 0⟩ = ⟨0, 0, 128⟩
    ∧ ((HeatmapOverlay.getGradientColors Metric.speed).getLast?).getD ⟨0, 0, 0⟩ =
        ⟨255, 0, 0⟩ := by
  refine ⟨?_, ?_, ?_, ?_, rfl, rfl⟩ <;>
    · norm_num [HeatmapOverlay.cellColor, HeatmapOverlay.getColorForIntensity,
        HeatmapOverlay.normalizedIntensity, HeatmapOverlay.minIntensity,
        HeatmapOverlay.maxIntensity, HeatmapOverlay.range, HeatmapOverlay.getIntensityValue,
        HeatmapOverlay.getGradientColors, clamp01, jsTruthyOr, jsOrQ, jsRound,
        listMax, listMin, cellA, cellB]
      try decide

/-- Claim C10: the color interpolation function is total on every rational
intensity — it first clamps the intensity into `[0,1]`, so its result equals
its result on the clamped intensity, and both palette indices it reads
(after the `Math.min(·, colorCount - 1)` clamp) are strictly within the
palette's length, so no out-of-bounds access occurs. -/
theorem c10_total_clamped (m : Metric) (intensity : ℚ) :
    HeatmapOverlay.getColorForIntensity m intensity =
        HeatmapOverlay.getColorForIntensity m (clamp01 intensity)
    ∧ min (HeatmapOverlay.colorIndexFor m intensity)
        ((HeatmapOverlay.getGradientColors m).length - 1) <
        (HeatmapOverlay.getGradientColors m).length
    ∧ min (HeatmapOverlay.colorIndexFor m intensity + 1)
        ((HeatmapOverlay.getGradientColors m).length - 1) <
        (HeatmapOverlay.getGradientColors m).length := by
  refine ⟨?_, ?_, ?_⟩
  · simp only [HeatmapOverlay.getColorForIntensity, clamp01_idem]
  · exact Nat.lt_of_le_of_lt (min_le_right _ _)
      (Nat.sub_lt (gradientColors_length_pos m) Nat.one_pos)
  · exact Nat.lt_of_le_of_lt (min_le_right _ _)
      (Nat.sub_lt (gradientColors_length_pos m) Nat.one_pos)

end TaxiHeatmap
